import Mathlib

/-!
Verification of the Explanation Pipeline frontend of the
Explainable-AI-for-Blockchain-Transactions repository.

Shallow embedding conventions:
* JavaScript strings are modelled as `List Char` (or `String` where only
  whole-string comparison is needed); JS numbers are modelled as `ℚ`.
* JS optional chaining (`obj?.field`) is modelled with `Option`; the JS
  defaulting idiom `x || d` is modelled by `jsOrQ` / `jsOrS` / `jsOrL`,
  which also map the falsy values `0` and the empty string to the default.
* `Array.prototype.sort` with a numeric comparator is, per ES2019, a stable
  sort; it is modelled with `List.insertionSort`, which is stable for a
  total preorder.
* `Number.prototype.toFixed(1)` is modelled by `toFixed1` (round to nearest
  tenth, ties towards the larger value, per the ECMA-262 definition).
-/

/-! ## Generic JavaScript helpers -/

/-- Whitespace characters removed by `String.prototype.trim` (ECMA-262
WhiteSpace and LineTerminator code points). -/
def isJsWhitespace (c : Char) : Bool :=
  c = ' ' || c = '\t' || c = '\n' || c = '\r' || c = '\x0b' || c = '\x0c' ||
  c = '\u00A0' || c = '\u1680' || (('\u2000' ≤ c) && (c ≤ '\u200A')) ||
  c = '\u2028' || c = '\u2029' || c = '\u202F' || c = '\u205F' ||
  c = '\u3000' || c = '\uFEFF'

/-- `String.prototype.trim`: drop whitespace from both ends. -/
def jsTrim (s : List Char) : List Char :=
  ((s.dropWhile isJsWhitespace).reverse.dropWhile isJsWhitespace).reverse

/-- JS `x || d` for an optionally-present number: `undefined`, and the falsy
value `0`, fall back to the default. -/
def jsOrQ (x : Option ℚ) (d : ℚ) : ℚ :=
  match x with
  | none => d
  | some v => if v = 0 then d else v

/-- JS `x || d` for an optionally-present string: `undefined`, and the falsy
empty string, fall back to the default. -/
def jsOrS (x : Option String) (d : String) : String :=
  match x with
  | none => d
  | some v => if v = "" then d else v

/-- JS `x || d` for an optionally-present array: only `undefined` falls back
(a present array is always truthy). -/
def jsOrL (x : Option (List String)) (d : List String) : List String :=
  x.getD d

/-! ## TransactionInput.jsx -/

namespace TransactionInput

/-- One character of the class `[a-fA-F0-9]`. -/
def isHexDigitChar (c : Char) : Bool :=
  (('0' ≤ c) && (c ≤ '9')) || (('a' ≤ c) && (c ≤ 'f')) || (('A' ≤ c) && (c ≤ 'F'))

/-- `validateHash`: test of the regular expression `^0x[a-fA-F0-9]{64}$`,
i.e. exactly 66 characters, starting with `0x`, the remaining 64 being hex
digits. -/
def validateHash (hash : List Char) : Bool :=
  (hash.length == 66) && (hash.take 2 == ['0', 'x']) && (hash.drop 2).all isHexDigitChar

/-- `handleSubmit`: trim the input; an empty trimmed hash or a trimmed hash
failing `validateHash` sets a validation error and returns without calling
`onSubmit`; otherwise `onSubmit(trimmedHash)` is invoked (which performs the
external `explainTransaction` call).  `some t` models the call with hash `t`;
`none` models rejection with a validation error. -/
def handleSubmit (txHash : List Char) : Option (List Char) :=
  if jsTrim txHash = [] then none
  else if validateHash (jsTrim txHash) then some (jsTrim txHash) else none

end TransactionInput

/-! ## The explain-result payload consumed by App.jsx -/

/-- `fraud_analysis` object of the explain response. -/
structure FraudAnalysis where
  risk_score : ℚ
  risk_level : String
  risk_factors : List String

/-- `gas_analysis` object of the explain response. -/
structure GasAnalysis where
  predicted_gas_gwei : ℚ
  actual_gas_gwei : ℚ
  efficiency : String
  fee_usd : ℚ

/-- `classification` object of the explain response. -/
structure Classification where
  category : String
  confidence : ℚ
  all_categories : List (String × ℚ)

/-- The fields of the explain response relevant to the analytics grid; each
predictor object may be absent (`Option`), modelling `result.x?.y`. -/
structure ExplainResult where
  fraud_analysis : Option FraudAnalysis
  gas_analysis : Option GasAnalysis
  classification : Option Classification

namespace App

/-- `result.fraud_analysis?.risk_score || 0` passed to FraudRiskMeter. -/
def riskScoreProp (r : ExplainResult) : ℚ :=
  jsOrQ (r.fraud_analysis.map FraudAnalysis.risk_score) 0

/-- `result.fraud_analysis?.risk_level || 'UNKNOWN'` passed to FraudRiskMeter. -/
def riskLevelProp (r : ExplainResult) : String :=
  jsOrS (r.fraud_analysis.map FraudAnalysis.risk_level) "UNKNOWN"

/-- `result.fraud_analysis?.risk_factors || []` passed to FraudRiskMeter. -/
def riskFactorsProp (r : ExplainResult) : List String :=
  jsOrL (r.fraud_analysis.map FraudAnalysis.risk_factors) []

/-- `result.gas_analysis?.predicted_gas_gwei || 0` passed to GasComparisonChart. -/
def predictedProp (r : ExplainResult) : ℚ :=
  jsOrQ (r.gas_analysis.map GasAnalysis.predicted_gas_gwei) 0

/-- `result.gas_analysis?.actual_gas_gwei || 0` passed to GasComparisonChart. -/
def actualProp (r : ExplainResult) : ℚ :=
  jsOrQ (r.gas_analysis.map GasAnalysis.actual_gas_gwei) 0

/-- `result.gas_analysis?.efficiency || 'NORMAL'` passed to GasComparisonChart. -/
def efficiencyProp (r : ExplainResult) : String :=
  jsOrS (r.gas_analysis.map GasAnalysis.efficiency) "NORMAL"

/-- `result.gas_analysis?.fee_usd || 0` passed to GasComparisonChart. -/
def feeUsdProp (r : ExplainResult) : ℚ :=
  jsOrQ (r.gas_analysis.map GasAnalysis.fee_usd) 0

/-- `result.classification?.category || 'Unknown'` passed to TransactionClassification. -/
def categoryProp (r : ExplainResult) : String :=
  jsOrS (r.classification.map Classification.category) "Unknown"

/-- `result.classification?.confidence || 0` passed to TransactionClassification. -/
def confidenceProp (r : ExplainResult) : ℚ :=
  jsOrQ (r.classification.map Classification.confidence) 0

end App

/-! ## TokenFlowDiagram.jsx -/

namespace TokenFlowDiagram

/-- `usdValue = isToken ? null : value * 2500` (USD only for ETH transfers). -/
def usdValue (isToken : Bool) (value : ℚ) : Option ℚ :=
  if isToken then none else some (value * 2500)

/-- The main text of the first additional-info cell:
`isToken ? tokenSymbol : usd-string`; the token symbol is the left case, a
USD amount the right case. -/
def additionalInfoMain (isToken : Bool) (tokenSymbol : String) (value : ℚ) :
    String ⊕ Option ℚ :=
  if isToken then Sum.inl tokenSymbol else Sum.inr (usdValue isToken value)

/-- The Transfer Size indicator for the non-token branch:
`value > 10 ? 'High Value' : value > 1 ? 'Medium' : 'Small'`. -/
def transferSizeEth (value : ℚ) : String :=
  if value > 10 then "High Value" else if value > 1 then "Medium" else "Small"

end TokenFlowDiagram

/-! ## FraudRiskMeter.jsx -/

namespace FraudRiskMeter

/-- `percentage = Math.min(riskScore * 100, 100)`. -/
def percentage (riskScore : ℚ) : ℚ :=
  min (riskScore * 100) 100

/-- `rotation = (percentage / 100) * 180 - 90`. -/
def rotation (riskScore : ℚ) : ℚ :=
  percentage riskScore / 100 * 180 - 90

end FraudRiskMeter

/-! ## GasComparisonChart.jsx -/

namespace GasComparisonChart

/-- `Number.prototype.toFixed(1)` read back as a number: round to the nearest
multiple of 1/10; when two are equally near, ECMA-262 picks the larger. -/
def toFixed1 (x : ℚ) : ℚ :=
  (⌊x * 10 + 1 / 2⌋ : ℚ) / 10

/-- `difference = actual - predicted`. -/
def difference (predicted actual : ℚ) : ℚ :=
  actual - predicted

/-- `diffPercent = predicted > 0 ? ((difference / predicted) * 100).toFixed(1) : 0`. -/
def diffPercent (predicted actual : ℚ) : ℚ :=
  if predicted > 0 then toFixed1 (difference predicted actual / predicted * 100) else 0

end GasComparisonChart

/-! ## ExplanationPanel.jsx -/

namespace ExplanationPanel

/-- `formatAddress`: return short/absent addresses unchanged, otherwise
`addr.slice(0, 8) + '...' + addr.slice(-6)`. -/
def formatAddress (addr : List Char) : List Char :=
  if addr = [] || addr.length < 15 then addr
  else addr.take 8 ++ "...".toList ++ addr.drop (addr.length - 6)

end ExplanationPanel

/-! ## TransactionClassification.jsx -/

/-- The comparison realised by the comparator `(a, b) => b - a` on the
probability components: descending probability. -/
def probGe (p q : String × ℚ) : Prop :=
  q.2 ≤ p.2

instance : DecidableRel probGe :=
  fun p q => inferInstanceAs (Decidable (q.2 ≤ p.2))

instance : IsTotal (String × ℚ) probGe :=
  ⟨fun p q => le_total q.2 p.2⟩

instance : IsTrans (String × ℚ) probGe :=
  ⟨fun _ _ _ h1 h2 => le_trans h2 h1⟩

namespace TransactionClassification

/-- `Object.entries(allCategories || \x7b\x7d).sort(([, a], [, b]) => b - a).slice(0, 5)`:
the entry list stably sorted by descending probability (ES2019 sorts are
stable; `List.insertionSort` is the stable sort for this total preorder),
truncated to the first five entries. -/
def sortedCategories (allCategories : List (String × ℚ)) : List (String × ℚ) :=
  (List.insertionSort probGe allCategories).take 5

end TransactionClassification

/-! ## Rule Engine (backend) -/

namespace RuleEngine

/-- Modelled from the spec: the backend Rule Engine
(`backend/explainer/explanation_engine.py`) is not among the provided
sources; §4.3 specifies the fraud-risk tier map as
`[0,0.30) → LOW`, `[0.30,0.60) → MEDIUM`, `[0.60,0.80) → HIGH`,
`[0.80,1.0] → CRITICAL`, lower edges closed. -/
def risk_level (score : ℚ) : String :=
  if score < 3 / 10 then "LOW"
  else if score < 6 / 10 then "MEDIUM"
  else if score < 8 / 10 then "HIGH"
  else "CRITICAL"

end RuleEngine

/-! ## Helper lemmas -/

/-- The ranking output is itself sorted by descending probability. -/
theorem sortedCategories_sorted (l : List (String × ℚ)) :
    (TransactionClassification.sortedCategories l).Sorted probGe :=
  List.Pairwise.sublist (List.take_sublist 5 _) (List.sorted_insertionSort probGe l)

/-- Filtering one probability class through an ordered insertion: the
inserted pair lands in front of its own class (every pair passed over has a
strictly larger probability) and every other class is untouched. -/
theorem filter_orderedInsert (a : String × ℚ) (s : List (String × ℚ)) (x : ℚ) :
    (List.orderedInsert probGe a s).filter (fun p => p.2 = x)
      = if a.2 = x then a :: s.filter (fun p => p.2 = x)
        else s.filter (fun p => p.2 = x) := by
  induction s with
  | nil =>
    by_cases hax : a.2 = x <;> simp [List.orderedInsert, hax]
  | cons b t ih =>
    by_cases hab : probGe a b
    · by_cases hax : a.2 = x <;>
        simp [List.orderedInsert, hab, List.filter_cons, hax]
    · by_cases hbx : b.2 = x
      · have hax : ¬(a.2 = x) := by
          intro h
          exact absurd (le_of_eq (hbx.trans h.symm)) hab
        simp [List.orderedInsert, hab, List.filter_cons, hbx, hax, ih]
      · by_cases hax : a.2 = x <;>
          simp [List.orderedInsert, hab, List.filter_cons, hbx, hax, ih]

/-- Stability of the sort: within each probability class the sorted list
keeps exactly the input's pairs in the input's order. -/
theorem insertionSort_filter_eq (l : List (String × ℚ)) (x : ℚ) :
    (List.insertionSort probGe l).filter (fun p => p.2 = x)
      = l.filter (fun p => p.2 = x) := by
  induction l with
  | nil => rfl
  | cons a t ih =>
    by_cases hax : a.2 = x <;>
      simp [List.insertionSort, filter_orderedInsert, List.filter_cons, hax, ih]

/-- Reading a number back from `toFixed(1)` moves it by at most 1/20. -/
theorem abs_toFixed1_sub_le (x : ℚ) :
    |GasComparisonChart.toFixed1 x - x| ≤ 1 / 20 := by
  have h1 : (⌊x * 10 + 1 / 2⌋ : ℚ) ≤ x * 10 + 1 / 2 := Int.floor_le _
  have h2 : x * 10 + 1 / 2 - 1 < (⌊x * 10 + 1 / 2⌋ : ℚ) := Int.sub_one_lt_floor _
  rw [abs_le, GasComparisonChart.toFixed1]
  constructor <;> linarith

/-! ## Claims -/

/-- Claim C1: for every input string `s`, the submission handler invokes the
downstream explain call with `trim(s)` if and only if `trim(s)` matches
`0x` followed by exactly 64 hexadecimal characters; every non-matching input
is rejected with a validation error before any external call is made. -/
theorem c1_submit_validation (s : List Char) :
    (TransactionInput.handleSubmit s = some (jsTrim s) ↔
      TransactionInput.validateHash (jsTrim s) = true) ∧
    (TransactionInput.validateHash (jsTrim s) = false →
      TransactionInput.handleSubmit s = none) := by
  by_cases h : jsTrim s = []
  · have hv : TransactionInput.validateHash ([] : List Char) = false := by decide
    simp [TransactionInput.handleSubmit, h, hv]
  · cases hv : TransactionInput.validateHash (jsTrim s) <;>
      simp [TransactionInput.handleSubmit, h, hv]

/-- Witness for C1 at the repository's example transaction hash (with
surrounding whitespace) and at a malformed hash. -/
theorem c1_submit_validation_witness :
    TransactionInput.handleSubmit
        " 0x5c504ed432cb51138bcf09aa5e8a410dd4a1e204ef84bfed1be16dfba1b22060 ".toList
      = some (jsTrim
        " 0x5c504ed432cb51138bcf09aa5e8a410dd4a1e204ef84bfed1be16dfba1b22060 ".toList) ∧
    TransactionInput.handleSubmit "0xabc".toList = none :=
  ⟨(c1_submit_validation _).1.mpr (by decide),
   (c1_submit_validation _).2 (by decide)⟩

/-- Claim C2 counterexample: for a result whose `gas_analysis` is absent
(fraud analysis present and populated), the gas prediction is rendered with
efficiency `NORMAL`, a non-UNKNOWN tier, contradicting the claim that a
missing prediction is never presented as a non-UNKNOWN tier. -/
theorem c2_missing_gas_counterexample :
    App.efficiencyProp
        ⟨some ⟨12/100, "LOW", []⟩, none, some ⟨"Simple Transfer", 92/100, []⟩⟩
      = "NORMAL" ∧
    App.riskLevelProp
        ⟨some ⟨12/100, "LOW", []⟩, none, some ⟨"Simple Transfer", 92/100, []⟩⟩
      = "LOW" ∧
    ("NORMAL" : String) ≠ "UNKNOWN" := by
  refine ⟨rfl, ?_, by decide⟩
  simp [App.riskLevelProp, jsOrS]

/-- Claim C2 (amended): a missing `fraud_analysis` is rendered as the UNKNOWN
tier with placeholder zeros, and a missing `classification` as category
Unknown with confidence 0, while present predictions keep their values; but a
missing `gas_analysis` is rendered with placeholder zeros and efficiency
`NORMAL`, not UNKNOWN. -/
theorem c2_degraded_rendering (r : ExplainResult) :
    (r.fraud_analysis = none →
      App.riskScoreProp r = 0 ∧ App.riskLevelProp r = "UNKNOWN" ∧
      App.riskFactorsProp r = []) ∧
    (r.gas_analysis = none →
      App.predictedProp r = 0 ∧ App.actualProp r = 0 ∧ App.feeUsdProp r = 0 ∧
      App.efficiencyProp r = "NORMAL") ∧
    (r.classification = none →
      App.categoryProp r = "Unknown" ∧ App.confidenceProp r = 0) ∧
    (∀ f, r.fraud_analysis = some f → f.risk_level ≠ "" →
      App.riskLevelProp r = f.risk_level ∧ App.riskFactorsProp r = f.risk_factors) ∧
    (∀ g, r.gas_analysis = some g → g.efficiency ≠ "" →
      App.efficiencyProp r = g.efficiency) := by
  refine ⟨?_, ?_, ?_, ?_, ?_⟩
  · intro h
    simp [App.riskScoreProp, App.riskLevelProp, App.riskFactorsProp, jsOrQ, jsOrS, jsOrL, h]
  · intro h
    simp [App.predictedProp, App.actualProp, App.feeUsdProp, App.efficiencyProp,
      jsOrQ, jsOrS, h]
  · intro h
    simp [App.categoryProp, App.confidenceProp, jsOrQ, jsOrS, h]
  · intro f hf hne
    simp [App.riskLevelProp, App.riskFactorsProp, jsOrS, jsOrL, hf, hne]
  · intro g hg hne
    simp [App.efficiencyProp, jsOrS, hg, hne]

/-- Witness for C2 (amended) at a result with a populated gas analysis and
missing fraud analysis and classification. -/
theorem c2_degraded_rendering_witness :
    App.riskLevelProp ⟨none, some ⟨25, 57/2, "NORMAL", 13/4⟩, none⟩ = "UNKNOWN" ∧
    App.efficiencyProp ⟨none, some ⟨25, 57/2, "NORMAL", 13/4⟩, none⟩ = "NORMAL" ∧
    App.categoryProp ⟨none, some ⟨25, 57/2, "NORMAL", 13/4⟩, none⟩ = "Unknown" :=
  ⟨((c2_degraded_rendering _).1 rfl).2.1,
   (c2_degraded_rendering _).2.2.2.2 _ rfl (by decide),
   ((c2_degraded_rendering _).2.2.1 rfl).1⟩

/-- Claim C3: evaluation of the Transfer Size indicator at the claimed
boundary.  The claim (and the README value-tier table: Small < 1 ETH,
Medium 1-10 ETH) places value 1 in MEDIUM, but the code renders value 1 as
Small; 1.5 and 10 render Medium and values above 10 render High Value as
claimed. -/
theorem c3_value_tier_boundary :
    TokenFlowDiagram.transferSizeEth 1 = "Small" ∧
    TokenFlowDiagram.transferSizeEth (3/2) = "Medium" ∧
    TokenFlowDiagram.transferSizeEth 10 = "Medium" ∧
    TokenFlowDiagram.transferSizeEth 11 = "High Value" ∧
    ("Small" : String) ≠ "Medium" := by
  refine ⟨?_, ?_, ?_, ?_, by decide⟩ <;> norm_num [TokenFlowDiagram.transferSizeEth]

/-- Claim C4 counterexample: the category ranking does not break ties by the
alphabetical category ordering, and two inputs with the same set of pairs
but different entry orders produce different outputs: with equal
probabilities, the entry order is preserved. -/
theorem c4_tie_break_counterexample :
    TransactionClassification.sortedCategories [("B", (1:ℚ)/2), ("A", 1/2)]
      = [("B", 1/2), ("A", 1/2)] ∧
    TransactionClassification.sortedCategories [("A", (1:ℚ)/2), ("B", 1/2)]
      = [("A", 1/2), ("B", 1/2)] ∧
    List.Perm [("B", (1:ℚ)/2), ("A", 1/2)] [("A", (1:ℚ)/2), ("B", 1/2)] ∧
    TransactionClassification.sortedCategories [("B", (1:ℚ)/2), ("A", 1/2)]
      ≠ TransactionClassification.sortedCategories [("A", (1:ℚ)/2), ("B", 1/2)] := by
  have e1 : TransactionClassification.sortedCategories [("B", (1:ℚ)/2), ("A", 1/2)]
      = [("B", 1/2), ("A", 1/2)] := by
    norm_num [TransactionClassification.sortedCategories, List.insertionSort,
      List.orderedInsert, probGe]
  have e2 : TransactionClassification.sortedCategories [("A", (1:ℚ)/2), ("B", 1/2)]
      = [("A", 1/2), ("B", 1/2)] := by
    norm_num [TransactionClassification.sortedCategories, List.insertionSort,
      List.orderedInsert, probGe]
  refine ⟨e1, e2, List.Perm.swap _ _ _, ?_⟩
  rw [e1, e2]
  simp

/-- Claim C4 (amended): the ranking returns the pairs sorted in descending
order of probability with ties kept in the input's entry order (the ES2019
sort is stable, not alphabetical on ties), truncated to the top 5 entries;
the output is a function of the input's entry sequence (two inputs with the
same set of pairs in different entry orders may order ties differently).
Stated universally: the output is sorted, has length `min 5 |l|`, draws its
pairs from the input, within each probability class it is a prefix of the
input's pairs of that class in input order (the stable tie-order, which an
alphabetical tie-break would violate), and every input pair left out has a
probability no larger than every returned pair (top-5 selection). -/
theorem c4_ranking_stable_top5 (l : List (String × ℚ)) :
    (TransactionClassification.sortedCategories l).Sorted probGe ∧
    (TransactionClassification.sortedCategories l).length = min 5 l.length ∧
    (∀ p ∈ TransactionClassification.sortedCategories l, p ∈ l) ∧
    (∀ x : ℚ, (TransactionClassification.sortedCategories l).filter (fun p => p.2 = x)
        <+: l.filter (fun p => p.2 = x)) ∧
    (∀ q ∈ l, q ∉ TransactionClassification.sortedCategories l →
      ∀ p ∈ TransactionClassification.sortedCategories l, q.2 ≤ p.2) := by
  refine ⟨sortedCategories_sorted l, ?_, ?_, ?_, ?_⟩
  · rw [TransactionClassification.sortedCategories, List.length_take,
      List.length_insertionSort]
  · intro p hp
    have hmem : p ∈ List.insertionSort probGe l :=
      (List.take_sublist 5 _).subset hp
    exact (List.perm_insertionSort probGe l).subset hmem
  · intro x
    have h1 : (TransactionClassification.sortedCategories l).filter (fun p => p.2 = x)
        <+: (List.insertionSort probGe l).filter (fun p => p.2 = x) :=
      (List.take_prefix 5 _).filter _
    rw [insertionSort_filter_eq] at h1
    exact h1
  · intro q hq hqnot p hp
    have hqs : q ∈ List.insertionSort probGe l :=
      (List.perm_insertionSort probGe l).symm.subset hq
    rw [← List.take_append_drop 5 (List.insertionSort probGe l)] at hqs
    rcases List.mem_append.mp hqs with hqt | hqd
    · exact absurd hqt hqnot
    · have hs2 : List.Sorted probGe
          ((List.insertionSort probGe l).take 5 ++ (List.insertionSort probGe l).drop 5) := by
        rw [List.take_append_drop]
        exact List.sorted_insertionSort probGe l
      exact (List.pairwise_append.mp hs2).2.2 p hp q hqd

/-- Witness for C4 (amended): a ranked pair is a pair of the input, and on a
six-entry distribution the dropped sixth pair has a probability no larger
than a returned one. -/
theorem c4_ranking_stable_top5_witness :
    ("B", (2:ℚ)) ∈ [("A", (1:ℚ)), ("B", 2)] ∧ ((1:ℚ) ≤ 6) :=
  ⟨(c4_ranking_stable_top5 [("A", (1:ℚ)), ("B", 2)]).2.2.1 ("B", 2) (by decide),
   (c4_ranking_stable_top5
      [("A", (6:ℚ)), ("B", 5), ("C", 4), ("D", 3), ("E", 2), ("F", 1)]).2.2.2.2
      ("F", 1) (by decide) (by decide) ("A", 6) (by decide)⟩

/-- Claim C5: for every score in [0,1], `risk_level` returns exactly one of
LOW, MEDIUM, HIGH, CRITICAL; the four buckets `[0,0.30)`, `[0.30,0.60)`,
`[0.60,0.80)`, `[0.80,1]` partition [0,1] with closed lower edges, and score
0.30 yields MEDIUM. -/
theorem c5_risk_level_partition (s : ℚ) (h0 : 0 ≤ s) (h1 : s ≤ 1) :
    (RuleEngine.risk_level s = "LOW" ∨ RuleEngine.risk_level s = "MEDIUM" ∨
     RuleEngine.risk_level s = "HIGH" ∨ RuleEngine.risk_level s = "CRITICAL") ∧
    (RuleEngine.risk_level s = "LOW" ↔ 0 ≤ s ∧ s < 3/10) ∧
    (RuleEngine.risk_level s = "MEDIUM" ↔ 3/10 ≤ s ∧ s < 6/10) ∧
    (RuleEngine.risk_level s = "HIGH" ↔ 6/10 ≤ s ∧ s < 8/10) ∧
    (RuleEngine.risk_level s = "CRITICAL" ↔ 8/10 ≤ s ∧ s ≤ 1) ∧
    RuleEngine.risk_level (3/10) = "MEDIUM" := by
  have hmed : RuleEngine.risk_level (3/10) = "MEDIUM" := by
    norm_num [RuleEngine.risk_level]
  refine ⟨?_, ?_, ?_, ?_, ?_, hmed⟩
  · unfold RuleEngine.risk_level
    split_ifs <;> simp
  all_goals
    unfold RuleEngine.risk_level
    split_ifs with hA hB hC <;>
      (constructor <;> intro h <;>
        first
          | rfl
          | exact ⟨by linarith, by linarith⟩
          | exact absurd h (by decide)
          | (exfalso; rcases h with ⟨ha, hb⟩; linarith))

/-- Witness for C5 at the boundary score 0.30. -/
theorem c5_risk_level_partition_witness :
    RuleEngine.risk_level (3/10) = "MEDIUM" :=
  (c5_risk_level_partition (3/10) (by norm_num) (by norm_num)).2.2.2.2.2

/-- Claim C6 counterexample: at predicted 3, actual 4, the displayed
percentage is 33.3 (`toFixed(1)`), while 100 times the exact deviation is
100/3 = 33.333...; the two differ. -/
theorem c6_diff_percent_rounding_counterexample :
    GasComparisonChart.diffPercent 3 4 = 333/10 ∧
    ((4:ℚ) - 3) / 3 * 100 = 100/3 ∧
    (333:ℚ)/10 ≠ 100/3 := by
  have hfloor : ⌊((4:ℚ) - 3) / 3 * 100 * 10 + 1 / 2⌋ = 333 := by
    rw [Int.floor_eq_iff]
    norm_num
  refine ⟨?_, by norm_num, by norm_num⟩
  norm_num [GasComparisonChart.diffPercent, GasComparisonChart.difference,
    GasComparisonChart.toFixed1, hfloor]

/-- Claim C6 (amended): for non-negative gas values, the relative deviation
is `(actual - predicted) / predicted` when predicted > 0 and 0 when
predicted is 0; the displayed percentage equals 100 times this deviation
rounded to one decimal place (hence within 1/20 of the exact value). -/
theorem c6_diff_percent_rounded (p a : ℚ) :
    (0 < p →
      GasComparisonChart.diffPercent p a
        = GasComparisonChart.toFixed1 ((a - p) / p * 100) ∧
      |GasComparisonChart.diffPercent p a - (a - p) / p * 100| ≤ 1 / 20) ∧
    (p = 0 → GasComparisonChart.diffPercent p a = 0) := by
  constructor
  · intro hp
    have heq : GasComparisonChart.diffPercent p a
        = GasComparisonChart.toFixed1 ((a - p) / p * 100) := by
      simp [GasComparisonChart.diffPercent, GasComparisonChart.difference, hp]
    refine ⟨heq, ?_⟩
    rw [heq]
    exact abs_toFixed1_sub_le _
  · intro hp
    simp [GasComparisonChart.diffPercent, hp]

/-- Witness for C6 (amended) at predicted 3, actual 4, and at predicted 0. -/
theorem c6_diff_percent_rounded_witness :
    GasComparisonChart.diffPercent 3 4
      = GasComparisonChart.toFixed1 (((4:ℚ) - 3) / 3 * 100) ∧
    GasComparisonChart.diffPercent 0 7 = 0 :=
  ⟨((c6_diff_percent_rounded 3 4).1 (by norm_num)).1,
   (c6_diff_percent_rounded 0 7).2 rfl⟩

/-- Claim C7: the category ranking is idempotent: a distribution already in
the ranking's output order is returned in the same order, and re-ranking a
ranking's output returns it unchanged. -/
theorem c7_ranking_idempotent (l : List (String × ℚ)) :
    (l.Sorted probGe → TransactionClassification.sortedCategories l = l.take 5) ∧
    TransactionClassification.sortedCategories
        (TransactionClassification.sortedCategories l)
      = TransactionClassification.sortedCategories l := by
  constructor
  · intro h
    rw [TransactionClassification.sortedCategories, h.insertionSort_eq]
  · have hs := sortedCategories_sorted l
    calc TransactionClassification.sortedCategories
            (TransactionClassification.sortedCategories l)
        = (List.insertionSort probGe
            (TransactionClassification.sortedCategories l)).take 5 := rfl
      _ = (TransactionClassification.sortedCategories l).take 5 := by
            rw [hs.insertionSort_eq]
      _ = TransactionClassification.sortedCategories l := by
            rw [TransactionClassification.sortedCategories, List.take_take]
            norm_num

/-- Witness for C7 at a concrete already-sorted distribution. -/
theorem c7_ranking_idempotent_witness :
    TransactionClassification.sortedCategories [("A", (3:ℚ)), ("B", 1)]
      = [("A", (3:ℚ)), ("B", 1)] := by
  have h := (c7_ranking_idempotent [("A", (3:ℚ)), ("B", 1)]).1 (by decide)
  simpa using h

/-- Claim C8: the explanation panel's address formatter returns empty or
short (< 15 characters) addresses unchanged, and otherwise the first 8
characters, an ellipsis, and the last 6 characters (a 17-character
abbreviation); it is total, never failing on any input string. -/
theorem c8_format_address (a : List Char) :
    (a.length < 15 → ExplanationPanel.formatAddress a = a) ∧
    (15 ≤ a.length →
      ExplanationPanel.formatAddress a
        = a.take 8 ++ "...".toList ++ a.drop (a.length - 6) ∧
      (ExplanationPanel.formatAddress a).length = 17) := by
  constructor
  · intro h
    simp [ExplanationPanel.formatAddress, h]
  · intro h
    have hne : ¬(a = []) := by
      intro e
      rw [e] at h
      simp at h
    have heq : ExplanationPanel.formatAddress a
        = a.take 8 ++ "...".toList ++ a.drop (a.length - 6) := by
      simp [ExplanationPanel.formatAddress, hne, Nat.not_lt.mpr h]
    refine ⟨heq, ?_⟩
    rw [heq]
    simp [List.length_append, List.length_take, List.length_drop]
    omega

/-- Witness for C8 at an 18-character address and a short address. -/
theorem c8_format_address_witness :
    ExplanationPanel.formatAddress "0xdeadbeefcafebabe".toList
      = "0xdeadbe...febabe".toList ∧
    ExplanationPanel.formatAddress "0xabc".toList = "0xabc".toList := by
  constructor
  · have h := ((c8_format_address "0xdeadbeefcafebabe".toList).2 (by decide)).1
    rw [h]
    decide
  · exact (c8_format_address "0xabc".toList).1 (by decide)

/-- Claim C9: the fraud-risk gauge percentage is `min(riskScore * 100, 100)`:
it never exceeds 100 (nor does the needle rotation exceed the 90-degree end),
clamps to 100 for riskScore > 1, and equals riskScore * 100 exactly on
[0, 1]. -/
theorem c9_gauge_clamped (r : ℚ) :
    FraudRiskMeter.percentage r ≤ 100 ∧
    FraudRiskMeter.rotation r ≤ 90 ∧
    (0 ≤ r → r ≤ 1 → FraudRiskMeter.percentage r = r * 100) ∧
    (1 < r → FraudRiskMeter.percentage r = 100) := by
  have hle : FraudRiskMeter.percentage r ≤ 100 := min_le_right _ _
  refine ⟨hle, ?_, ?_, ?_⟩
  · unfold FraudRiskMeter.rotation
    linarith
  · intro _ h1
    unfold FraudRiskMeter.percentage
    exact min_eq_left (by linarith)
  · intro h
    unfold FraudRiskMeter.percentage
    exact min_eq_right (by linarith)

/-- Witness for C9 at riskScore 0.12 (in range) and riskScore 2 (clamped). -/
theorem c9_gauge_clamped_witness :
    FraudRiskMeter.percentage (12/100) = (12:ℚ)/100 * 100 ∧
    FraudRiskMeter.percentage 2 = 100 :=
  ⟨(c9_gauge_clamped (12/100)).2.2.1 (by norm_num) (by norm_num),
   (c9_gauge_clamped 2).2.2.2 (by norm_num)⟩

/-- Claim C10: the approximate USD value is computed only for non-token
transfers, as value * 2500; for token transfers it is null and the
additional-info cell shows the token symbol instead. -/
theorem c10_usd_only_for_eth (v : ℚ) (sym : String) :
    TokenFlowDiagram.usdValue true v = none ∧
    TokenFlowDiagram.usdValue false v = some (v * 2500) ∧
    TokenFlowDiagram.additionalInfoMain true sym v = Sum.inl sym ∧
    TokenFlowDiagram.additionalInfoMain false sym v = Sum.inr (some (v * 2500)) :=
  ⟨rfl, rfl, rfl, rfl⟩
